import Mathlib

/-
  A shallow embedding of the avatar-sdk-go session core (AvatarSession:
  Init / Start / SendAudio / Close / readLoop, plus the error-code map and
  the session configuration), together with theorems settling the
  specification claims about it.

  External effects (HTTP, the websocket transport, protobuf marshalling,
  the id generator, URL parsing) are modelled as explicit "world" inputs:
  each operation is a pure function of the session state and the world,
  returning the new state, the Go return value, and the observable effects
  (connection closed, callbacks fired, ...).
-/

namespace Avatar

/-- Stable SDK error codes ("AvatarSDKErrorCode" in the source). -/
inductive AvatarSDKErrorCode where
  | sessionTokenExpired
  | sessionTokenInvalid
  | appIDUnrecognized
  | unknown
deriving DecidableEq, Repr

/-- The string value of each error-code constant. -/
def AvatarSDKErrorCode.value : AvatarSDKErrorCode → String
  | .sessionTokenExpired => "sessionTokenExpired"
  | .sessionTokenInvalid => "sessionTokenInvalid"
  | .appIDUnrecognized => "appIDUnrecognized"
  | .unknown => "unknown"

/-- A Go error value returned by the session operations: either a plain
    error built from a message string, or an AvatarSDKError carrying a
    stable code and a message. -/
inductive SessionError where
  | str (msg : String)
  | sdk (code : AvatarSDKErrorCode) (msg : String)
deriving DecidableEq, Repr

/-- mapWSConnectErrorToCode: maps websocket HTTP upgrade failures to stable
    SDK error codes (401 / 400 / 404), anything else to none. -/
def mapWSConnectErrorToCode (statusCode : Int) : Option AvatarSDKErrorCode :=
  if statusCode = 401 then some .sessionTokenExpired
  else if statusCode = 400 then some .sessionTokenInvalid
  else if statusCode = 404 then some .appIDUnrecognized
  else none

/- ===== Wire envelope model (the decoded protobuf Message) ===== -/

/-- server_confirm_session payload. -/
structure ServerConfirmSession where
  connectionId : String
deriving DecidableEq, Repr

/-- server_error payload. -/
structure ServerErrorMsg where
  connectionId : String
  reqId : String
  code : Int
  message : String
deriving DecidableEq, Repr

/-- server_response_animation payload; only the end marker is inspected. -/
structure ServerResponseAnimation where
  isEnd : Bool
deriving DecidableEq, Repr

/-- client_audio_input payload. -/
structure ClientAudioInput where
  reqId : String
  audio : List Nat
  isEnd : Bool
deriving DecidableEq, Repr

/-- LiveKit egress descriptor sent in the configure message. -/
structure LiveKitEgressProto where
  url : String
  apiKey : String
  apiSecret : String
  roomName : String
  publisherId : String
deriving DecidableEq, Repr

/-- client_configure_session payload. -/
structure ClientConfigureSession where
  sampleRate : Int
  bitrate : Int
  audioFormat : String
  transportCompression : String
  egressType : String
  livekitEgress : Option LiveKitEgressProto
deriving DecidableEq, Repr

/-- The message-type tag of an envelope. Known variants used by the core;
    `other n` stands for any other enum value. -/
inductive MessageType where
  | clientConfigureSession
  | serverConfirmSession
  | clientAudioInput
  | serverResponseAnimation
  | serverError
  | other (n : Int)
deriving DecidableEq, Repr

/-- The rendering of a message type by the %v format verb. -/
def messageTypeName : MessageType → String
  | .clientConfigureSession => "MESSAGE_CLIENT_CONFIGURE_SESSION"
  | .serverConfirmSession => "MESSAGE_SERVER_CONFIRM_SESSION"
  | .clientAudioInput => "MESSAGE_CLIENT_AUDIO_INPUT"
  | .serverResponseAnimation => "MESSAGE_SERVER_RESPONSE_ANIMATION"
  | .serverError => "MESSAGE_SERVER_ERROR"
  | .other n => toString n

/-- The oneof data slot of an envelope. Payload pointers may be nil in Go,
    hence the Option on each variant. -/
inductive MessageData where
  | empty
  | clientConfigureSession (c : Option ClientConfigureSession)
  | clientAudioInput (a : Option ClientAudioInput)
  | serverConfirmSession (c : Option ServerConfirmSession)
  | serverError (e : Option ServerErrorMsg)
  | serverResponseAnimation (a : Option ServerResponseAnimation)
deriving DecidableEq, Repr

/-- One decoded wire envelope: a type tag plus the oneof data. -/
structure Message where
  type : MessageType
  data : MessageData
deriving DecidableEq, Repr

/-- GetServerConfirmSession: nil unless the data oneof holds that variant. -/
def Message.getServerConfirmSession (m : Message) : Option ServerConfirmSession :=
  match m.data with
  | .serverConfirmSession c => c
  | _ => none

/-- GetServerError: nil unless the data oneof holds that variant. -/
def Message.getServerError (m : Message) : Option ServerErrorMsg :=
  match m.data with
  | .serverError e => e
  | _ => none

/-- GetServerResponseAnimation: nil unless the data oneof holds that variant. -/
def Message.getServerResponseAnimation (m : Message) : Option ServerResponseAnimation :=
  match m.data with
  | .serverResponseAnimation a => a
  | _ => none

/- ===== Session configuration and state ===== -/

/-- LiveKit egress configuration on the session config. -/
structure LiveKitEgressConfig where
  url : String
  apiKey : String
  apiSecret : String
  roomName : String
  publisherID : String
deriving DecidableEq, Repr

/-- SessionConfig. Callback slots are modelled by whether the function
    pointer is non-nil (the callback bodies live outside the embedding);
    time.Time ExpireAt is modelled by its IsZero flag and its Unix value. -/
structure SessionConfig where
  avatarID : String
  apiKey : String
  appID : String
  useQueryAuth : Bool
  expireAtIsZero : Bool
  expireAtUnix : Int
  sampleRate : Int
  bitrate : Int
  transportFramesSet : Bool
  onErrorSet : Bool
  onCloseSet : Bool
  consoleEndpointURL : String
  ingressEndpointURL : String
  liveKitEgress : Option LiveKitEgressConfig
deriving DecidableEq, Repr

/-- defaultSessionConfig: no-op (but set) callbacks, 16 kHz, bitrate 0. -/
def defaultSessionConfig : SessionConfig where
  avatarID := ""
  apiKey := ""
  appID := ""
  useQueryAuth := false
  expireAtIsZero := true
  expireAtUnix := 0
  sampleRate := 16000
  bitrate := 0
  transportFramesSet := true
  onErrorSet := true
  onCloseSet := true
  consoleEndpointURL := ""
  ingressEndpointURL := ""
  liveKitEgress := none

/-- AvatarSession: the mutable root state. The websocket connection handle
    is modelled by whether one is open. -/
structure AvatarSession where
  config : Option SessionConfig
  sessionToken : String
  conn : Bool
  currentReqID : String
  connectionID : String
deriving DecidableEq, Repr

/-- NewAvatarSession: applies the options to the default config; every
    other field starts at its zero value. -/
def NewAvatarSession (opts : List (SessionConfig → SessionConfig)) : AvatarSession where
  config := some (opts.foldl (fun c f => f c) defaultSessionConfig)
  sessionToken := ""
  conn := false
  currentReqID := ""
  connectionID := ""

/-- Whether the session's config has a registered (non-nil) OnClose. -/
def onCloseRegistered (s : AvatarSession) : Bool :=
  match s.config with
  | some c => c.onCloseSet
  | none => false

/- ===== Close ===== -/

/-- World inputs for Close: outcomes of the close-control-frame write and
    of closing the underlying connection. -/
structure CloseWorld where
  writeCloseErr : Option String
  connCloseErr : Option String
deriving DecidableEq, Repr

/-- Observable outcome of Close: final session (nil stays nil), the
    returned error, whether conn.Close() was called on the underlying
    connection, and whether the OnClose callback was invoked. -/
structure CloseRes where
  s : Option AvatarSession
  ret : Except SessionError Unit
  connCloseCalled : Bool
  onCloseFired : Bool
deriving Repr

/-- Close on a possibly-nil session. -/
def Close (s : Option AvatarSession) (w : CloseWorld) : CloseRes :=
  match s with
  | none => ⟨none, .ok (), false, false⟩
  | some sess =>
    if sess.conn = true then
      match w.writeCloseErr with
      | some m =>
        ⟨some { sess with conn := false },
          .error (.str ("close avatar session: send close message: " ++ m)), true, false⟩
      | none =>
        match w.connCloseErr with
        | some m =>
          ⟨some { sess with conn := false },
            .error (.str ("close avatar session: close connection: " ++ m)), true, false⟩
        | none =>
          let s1 : AvatarSession := { sess with conn := false }
          ⟨some s1, .ok (), true, onCloseRegistered s1⟩
    else
      ⟨some sess, .ok (), false, onCloseRegistered sess⟩

/- ===== SendAudio ===== -/

/-- Outcome of GenerateLogID. -/
inductive IdGenResult where
  | ok (id : String)
  | err (m : String)
deriving DecidableEq, Repr

/-- World inputs for SendAudio: the id-generator outcome and the outcomes
    of protobuf marshalling and of the binary-frame write. -/
structure SendAudioWorld where
  genID : IdGenResult
  marshalErr : Option String
  writeErr : Option String
deriving DecidableEq, Repr

/-- Observable outcome of SendAudio: the new session state, the returned
    (reqID, error) pair, and the envelope handed to the frame write (none
    when marshalling failed before any write was attempted). -/
structure SendAudioRes where
  s : AvatarSession
  ret : Except SessionError String
  sent : Option Message
deriving Repr

/-- SendAudio on a session (non-nil receiver). -/
def SendAudio (s : AvatarSession) (w : SendAudioWorld) (audio : List Nat)
    (isEnd : Bool) : SendAudioRes :=
  if s.conn = false then
    ⟨s, .error (.str "send audio: websocket connection is not established"), none⟩
  else
    match (if s.currentReqID = "" then w.genID else .ok s.currentReqID) with
    | .err m =>
      ⟨s, .error (.str ("send audio: generate request id: " ++ m)), none⟩
    | .ok rid =>
      let s1 : AvatarSession := { s with currentReqID := rid }
      let msg : Message :=
        { type := .clientAudioInput
          data := .clientAudioInput (some { reqId := rid, audio := audio, isEnd := isEnd }) }
      match w.marshalErr with
      | some m => ⟨s1, .error (.str ("send audio: marshal message: " ++ m)), none⟩
      | none =>
        match w.writeErr with
        | some m => ⟨s1, .error (.str ("send audio: write message: " ++ m)), some msg⟩
        | none =>
          if isEnd then ⟨{ s1 with currentReqID := "" }, .ok rid, some msg⟩
          else ⟨s1, .ok rid, some msg⟩

/- ===== Init (token exchange) ===== -/

/-- The JSON request payload built by Init. -/
structure SessionTokenRequest where
  expireAt : Int
  modelVersion : String
deriving DecidableEq, Repr

/-- One entry of the "errors" array of the token response. -/
structure TokenErrEntry where
  id : String
  status : Int
  code : String
  title : String
  detail : String
deriving DecidableEq, Repr

/-- The parsed token response body. -/
structure SessionTokenResponse where
  sessionToken : String
  errors : List TokenErrEntry
deriving DecidableEq, Repr

/-- formatSessionTokenError: formats resp.Errors[0]. -/
def formatSessionTokenError (status : Int) (resp : SessionTokenResponse) : String :=
  match resp.errors with
  | [] => "unknown error with status " ++ toString status
  | e :: _ =>
    "Error " ++ toString e.status ++ " (" ++ e.code ++ "): " ++ e.title ++ " - " ++ e.detail

/-- Outcome of the HTTP exchange: a transport error, or a response with a
    status code, the outcome of reading the body, and the outcome of
    JSON-decoding the body that was read. -/
inductive HttpResult where
  | transportErr (m : String)
  | resp (status : Int) (readBody : Except String Unit)
      (parse : Except String SessionTokenResponse)
deriving Repr

/-- World inputs for Init: the (in practice always-successful) request
    encoding and construction outcomes, and the HTTP exchange outcome. -/
structure InitWorld where
  encodeErr : Option String
  newReqErr : Option String
  http : HttpResult
deriving Repr

/-- Init on a possibly-nil session: returns the new session state and the
    returned error. Every field other than sessionToken is never written. -/
def Init (s : Option AvatarSession) (w : InitWorld) :
    Option AvatarSession × Except SessionError Unit :=
  match s with
  | none => (none, .error (.str "init avatar session: session is nil"))
  | some sess =>
    match sess.config with
    | none => (some sess, .error (.str "init avatar session: session config is nil"))
    | some cfg =>
      if cfg.apiKey = "" then
        (some sess, .error (.str "init avatar session: missing API key"))
      else if cfg.consoleEndpointURL = "" then
        (some sess, .error (.str "init avatar session: missing console endpoint URL"))
      else if cfg.expireAtIsZero = true then
        (some sess, .error (.str "init avatar session: missing expireAt"))
      else
        match w.encodeErr with
        | some m =>
          (some sess, .error (.str ("init avatar session: encode request: " ++ m)))
        | none =>
          match w.newReqErr with
          | some m =>
            (some sess, .error (.str ("init avatar session: create request: " ++ m)))
          | none =>
            match w.http with
            | .transportErr m =>
              (some sess, .error (.str ("init avatar session: request session token: " ++ m)))
            | .resp status readBody parse =>
              match readBody with
              | .error m =>
                (some sess, .error (.str ("init avatar session: read response: " ++ m)))
              | .ok _ =>
                if status ≠ 200 then
                  (some sess,
                    .error (.str ("init avatar session: request failed with status " ++ toString status)))
                else
                  match parse with
                  | .error m =>
                    (some sess, .error (.str ("init avatar session: decode response: " ++ m)))
                  | .ok tr =>
                    if 0 < tr.errors.length then
                      (some sess,
                        .error (.str ("init avatar session: " ++ formatSessionTokenError status tr)))
                    else if tr.sessionToken = "" then
                      (some sess, .error (.str "init avatar session: empty session token in response"))
                    else
                      (some { sess with sessionToken := tr.sessionToken }, .ok ())

/- ===== Start: scheme normalization, request construction, dial ===== -/

/-- strings.ToLower, modelled on the character list (the schemes the code
    compares against are all ASCII). -/
def lowerStr (s : String) : String := String.mk (s.data.map Char.toLower)

/-- Scheme normalization of the ingress endpoint URL (the switch on
    strings.ToLower(u.Scheme); the ws/wss cases keep the original scheme,
    the unsupported-scheme message quotes the original scheme). -/
def normalizeScheme (scheme : String) : Except SessionError String :=
  let ls := lowerStr scheme
  if ls = "http" then .ok "ws"
  else if ls = "https" then .ok "wss"
  else if ls = "ws" then .ok scheme
  else if ls = "wss" then .ok scheme
  else if ls = "" then .error (.str "start avatar session: ingress endpoint scheme missing")
  else .error (.str ("start avatar session: unsupported scheme \"" ++ scheme ++ "\""))

/-- url.Values.Set: replace every binding of the key with the single value. -/
def qSet (q : List (String × String)) (k v : String) : List (String × String) :=
  q.filter (fun p => p.1 ≠ k) ++ [(k, v)]

/-- Lookup of a query parameter / header value by key. -/
def qGet (q : List (String × String)) (k : String) : Option String :=
  (q.find? (fun p => p.1 = k)).map (fun p => p.2)

/-- The query parameters Start sends: the pre-existing query of the parsed
    ingress URL, then Set("id", avatarID), then in query-auth mode
    Set("appId", appID) and Set("sessionKey", token). -/
def buildStartQuery (cfg : SessionConfig) (token : String)
    (baseQ : List (String × String)) : List (String × String) :=
  let q := qSet baseQ "id" cfg.avatarID
  if cfg.useQueryAuth = true then qSet (qSet q "appId" cfg.appID) "sessionKey" token
  else q

/-- The headers Start sends: empty in query-auth mode, X-App-ID and
    X-Session-Key in header-auth mode. -/
def buildStartHeaders (cfg : SessionConfig) (token : String) : List (String × String) :=
  if cfg.useQueryAuth = true then []
  else [("X-App-ID", cfg.appID), ("X-Session-Key", token)]

/-- The HTTP response attached to a failed dial: its status and the body
    text successfully read from it (none when the body was nil or reading
    it failed). -/
structure DialResp where
  status : Int
  body : Option String
deriving DecidableEq, Repr

/-- Outcome of websocket.DefaultDialer.DialContext. -/
inductive DialResult where
  | ok
  | fail (resp : Option DialResp) (errMsg : String)
deriving DecidableEq, Repr

/-- The error Start returns when the dial fails: a typed SDK error when
    the status maps, else a generic failure quoting the status and body
    when a non-empty body was read, else the wrapped dial error. -/
def dialFailError (resp : Option DialResp) (errMsg : String) : SessionError :=
  match resp with
  | some r =>
    match mapWSConnectErrorToCode r.status with
    | some code => .sdk code ("WebSocket auth failed (HTTP " ++ toString r.status ++ ")")
    | none =>
      match r.body with
      | some b =>
        if 0 < b.length then
          .str ("start avatar session: dial websocket failed with code " ++ toString r.status
            ++ ": " ++ b.trim)
        else .str ("start avatar session: dial websocket: " ++ errMsg)
      | none => .str ("start avatar session: dial websocket: " ++ errMsg)
  | none => .str ("start avatar session: dial websocket: " ++ errMsg)

/- ===== Start: configure message and handshake wait ===== -/

/-- Outcome of marshalling and writing the configure message. -/
inductive ConfigureResult where
  | ok
  | marshalErr (m : String)
  | writeErr (m : String)
deriving DecidableEq, Repr

/-- The ClientConfigureSession envelope Start sends. -/
def buildClientConfigureSession (cfg : SessionConfig) : Message :=
  let egress : Option LiveKitEgressProto :=
    match cfg.liveKitEgress with
    | some e => some
        { url := e.url
          apiKey := e.apiKey
          apiSecret := e.apiSecret
          roomName := e.roomName
          publisherId := e.publisherID }
    | none => none
  { type := .clientConfigureSession
    data := .clientConfigureSession (some
      { sampleRate := cfg.sampleRate
        bitrate := cfg.bitrate
        audioFormat := "AUDIO_FORMAT_PCM_S16LE"
        transportCompression := "TRANSPORT_COMPRESSION_NONE"
        egressType := (if cfg.liveKitEgress.isSome then "EGRESS_TYPE_LIVEKIT" else "")
        livekitEgress := egress }) }

/-- sendClientConfigureSession: requires an open connection, then reports
    the marshal or write failure, or returns the message it sent. -/
def sendClientConfigureSession (cfg : SessionConfig) (connOpen : Bool)
    (r : ConfigureResult) : Except SessionError Message :=
  if connOpen = false then .error (.str "websocket connection is not established")
  else
    match r with
    | .marshalErr m =>
      .error (.str ("start avatar session: marshal configure session message: " ++ m))
    | .writeErr m =>
      .error (.str ("start avatar session: send configure session message: " ++ m))
    | .ok => .ok (buildClientConfigureSession cfg)

/-- The one inbound read of the handshake wait: a read-deadline setup
    failure, a read failure, or one frame with its type and the outcome of
    protobuf-decoding its payload. -/
inductive HandshakeRead where
  | setDeadlineErr (m : String)
  | readErr (m : String)
  | frame (binary : Bool) (decode : Except String Message)
deriving Repr

/-- awaitServerConfirmSession: reads exactly one message and decides the
    handshake outcome from its shape. -/
def awaitServerConfirmSession (connOpen : Bool) (r : HandshakeRead) :
    Except SessionError String :=
  if connOpen = false then .error (.str "websocket connection is not established")
  else
    match r with
    | .setDeadlineErr m =>
      .error (.str ("start avatar session: set read deadline: " ++ m))
    | .readErr m =>
      .error (.str ("start avatar session: failed during websocket handshake: " ++ m))
    | .frame binary decode =>
      if binary = false then
        .error (.str "start avatar session: failed during websocket handshake: expected binary protobuf message")
      else
        match decode with
        | .error m =>
          .error (.str ("start avatar session: failed during websocket handshake: invalid protobuf payload: " ++ m))
        | .ok env =>
          match env.type with
          | .serverConfirmSession =>
            match env.getServerConfirmSession with
            | none =>
              .error (.str "start avatar session: handshake succeeded but server_confirm_session.connection_id is empty")
            | some confirm =>
              if confirm.connectionId = "" then
                .error (.str "start avatar session: handshake succeeded but server_confirm_session.connection_id is empty")
              else .ok confirm.connectionId
          | .serverError =>
            match env.getServerError with
            | none =>
              .error (.str "start avatar session: ServerError during handshake (missing payload)")
            | some e =>
              .error (.str ("start avatar session: ServerError during handshake (connection_id="
                ++ e.connectionId ++ ", req_id=" ++ e.reqId ++ ", code=" ++ toString e.code
                ++ "): " ++ e.message))
          | t =>
            .error (.str ("start avatar session: unexpected message during handshake: type="
              ++ messageTypeName t))

/- ===== Start ===== -/

/-- The scheme and query of the parsed ingress endpoint URL. -/
structure UrlParts where
  scheme : String
  query : List (String × String)
deriving DecidableEq, Repr

/-- World inputs for Start: the url.Parse outcome, the dial outcome, the
    configure-message outcome, and the one handshake read. -/
structure StartWorld where
  parse : Except String UrlParts
  dial : DialResult
  configure : ConfigureResult
  read : HandshakeRead
deriving Repr

/-- Observable outcome of Start: the final session state, the returned
    (connectionID, error) pair, whether a connection was opened, whether
    Start closed it again, and whether the read loop was spawned. -/
structure StartRes where
  s : AvatarSession
  ret : Except SessionError String
  connOpened : Bool
  connClosed : Bool
  readLoopStarted : Bool
deriving Repr

/-- Start on a session (non-nil receiver). -/
def Start (s : AvatarSession) (w : StartWorld) : StartRes :=
  match s.config with
  | none => ⟨s, .error (.str "start avatar session: session config is nil"), false, false, false⟩
  | some cfg =>
    if s.conn = true then
      ⟨s, .error (.str "start avatar session: session already started"), false, false, false⟩
    else if s.sessionToken = "" then
      ⟨s, .error (.str "start avatar session: session not initialized"), false, false, false⟩
    else if cfg.ingressEndpointURL = "" then
      ⟨s, .error (.str "start avatar session: missing ingress endpoint URL"), false, false, false⟩
    else if cfg.avatarID = "" then
      ⟨s, .error (.str "start avatar session: missing avatar ID"), false, false, false⟩
    else if cfg.appID = "" then
      ⟨s, .error (.str "start avatar session: missing app ID"), false, false, false⟩
    else
      match w.parse with
      | .error m =>
        ⟨s, .error (.str ("start avatar session: parse ingress endpoint: " ++ m)), false, false, false⟩
      | .ok parts =>
        match normalizeScheme parts.scheme with
        | .error e => ⟨s, .error e, false, false, false⟩
        | .ok _ =>
          match w.dial with
          | .fail resp errMsg => ⟨s, .error (dialFailError resp errMsg), false, false, false⟩
          | .ok =>
            let s1 : AvatarSession := { s with conn := true }
            match sendClientConfigureSession cfg true w.configure with
            | .error e => ⟨{ s1 with conn := false }, .error e, true, true, false⟩
            | .ok _ =>
              match awaitServerConfirmSession true w.read with
              | .error e => ⟨{ s1 with conn := false }, .error e, true, true, false⟩
              | .ok cid =>
                ⟨{ s1 with connectionID := cid }, .ok cid, true, false, true⟩

/- ===== The inbound read loop (one iteration) ===== -/

/-- What one iteration of the read loop observes: the cancellation signal
    fired before the read; the read failed (with whether the context error
    was set and whether the failure is a normal/going-away close); or one
    frame arrived with its type, raw payload, and decode outcome. -/
inductive LoopEvent where
  | ctxDone
  | readFailure (ctxErrSet : Bool) (normalOrGoingAway : Bool) (m : String)
  | frameEvent (binary : Bool) (payload : List Nat) (decode : Except String Message)
deriving Repr

/-- What one iteration of the read loop does: whether the loop exits,
    whether it closed the session, the message passed to the OnError
    callback (none when no call was made), and the (copied payload, last)
    pair passed to the frames callback (none when no call was made). -/
structure LoopStep where
  exits : Bool
  closedSession : Bool
  errorReported : Option String
  frameDelivered : Option (List Nat × Bool)
deriving Repr

/-- Whether the config slot has a registered (non-nil) OnError. -/
def cfgOnError (cfg : Option SessionConfig) : Bool :=
  match cfg with
  | some c => c.onErrorSet
  | none => false

/-- Whether the config slot has a registered (non-nil) TransportFrames. -/
def cfgFrames (cfg : Option SessionConfig) : Bool :=
  match cfg with
  | some c => c.transportFramesSet
  | none => false

/-- One iteration of readLoop, over the captured config slot. -/
def readLoopStep (cfg : Option SessionConfig) (ev : LoopEvent) : LoopStep :=
  match ev with
  | .ctxDone => ⟨true, false, none, none⟩
  | .readFailure ctxErrSet normalOrGoingAway m =>
    if ctxErrSet = true then ⟨true, false, none, none⟩
    else if normalOrGoingAway = true then ⟨true, false, none, none⟩
    else
      ⟨true, true,
        (if cfgOnError cfg then some ("avatar session read loop: read message: " ++ m) else none),
        none⟩
  | .frameEvent binary payload decode =>
    if binary = false then ⟨false, false, none, none⟩
    else
      match decode with
      | .error m =>
        ⟨false, false,
          (if cfgOnError cfg then some ("avatar session read loop: decode message: " ++ m) else none),
          none⟩
      | .ok env =>
        match env.type with
        | .serverResponseAnimation =>
          if cfgFrames cfg then
            let last : Bool :=
              match env.getServerResponseAnimation with
              | some a => a.isEnd
              | none => false
            ⟨false, false, none, some (payload, last)⟩
          else ⟨false, false, none, none⟩
        | .serverError =>
          if cfgOnError cfg then
            match env.getServerError with
            | none =>
              ⟨false, false, some "avatar session read loop: error message missing payload", none⟩
            | some e =>
              ⟨false, false,
                some ("avatar session error (connection_id=" ++ e.connectionId ++ ", req_id="
                  ++ e.reqId ++ ", code=" ++ toString e.code ++ "): " ++ e.message),
                none⟩
          else ⟨false, false, none, none⟩
        | _ => ⟨false, false, none, none⟩

/- ===== Sample inputs used by the witnesses ===== -/

/-- A session with no open connection (fresh from the constructor). -/
def sampleIdleSession : AvatarSession := NewAvatarSession []

/-- A session with an open connection and a token. -/
def sampleOpenSession : AvatarSession :=
  { config := some defaultSessionConfig
    sessionToken := "tok"
    conn := true
    currentReqID := ""
    connectionID := "" }

/- ===== C7 ===== -/

/-- C7: the status-code map is a pure total function sending 401 to the
    token-expired code "sessionTokenExpired", 400 to the token-invalid
    code "sessionTokenInvalid", 404 to the app-id-unrecognized code
    "appIDUnrecognized", and every other status to none; on an unmapped
    status Start's dial-rejection path falls back to a generic failure
    carrying the raw status and body. -/
theorem mapWSConnectError_total_spec :
    mapWSConnectErrorToCode 401 = some .sessionTokenExpired ∧
    mapWSConnectErrorToCode 400 = some .sessionTokenInvalid ∧
    mapWSConnectErrorToCode 404 = some .appIDUnrecognized ∧
    AvatarSDKErrorCode.value .sessionTokenExpired = "sessionTokenExpired" ∧
    AvatarSDKErrorCode.value .sessionTokenInvalid = "sessionTokenInvalid" ∧
    AvatarSDKErrorCode.value .appIDUnrecognized = "appIDUnrecognized" ∧
    (∀ st : Int, st ≠ 401 → st ≠ 400 → st ≠ 404 → mapWSConnectErrorToCode st = none) ∧
    (∀ st : Int, st ≠ 401 → st ≠ 400 → st ≠ 404 → ∀ b em : String, 0 < b.length →
      dialFailError (some ⟨st, some b⟩) em =
        .str ("start avatar session: dial websocket failed with code " ++ toString st
          ++ ": " ++ b.trim)) := by
  refine ⟨rfl, rfl, rfl, rfl, rfl, rfl, ?_, ?_⟩
  · intro st h1 h2 h3
    simp [mapWSConnectErrorToCode, h1, h2, h3]
  · intro st h1 h2 h3 b em hb
    simp [dialFailError, mapWSConnectErrorToCode, h1, h2, h3, hb]

/-- Witness for C7 at status 500 with body " oops ". -/
theorem mapWSConnectError_total_spec_witness :
    mapWSConnectErrorToCode 500 = none ∧
    dialFailError (some ⟨500, some " oops "⟩) "x" =
      .str ("start avatar session: dial websocket failed with code " ++ toString (500 : Int)
        ++ ": " ++ (" oops " : String).trim) :=
  ⟨mapWSConnectError_total_spec.2.2.2.2.2.2.1 500 (by decide) (by decide) (by decide),
   mapWSConnectError_total_spec.2.2.2.2.2.2.2 500 (by decide) (by decide) (by decide)
     " oops " "x" (by decide)⟩

/- ===== C6 ===== -/

/-- C6: in the read loop, a message that fails to decode is reported
    through the error callback and the loop continues (no exit, no close);
    a read failure that is neither a cancellation nor a normal/going-away
    close is reported through the error callback, followed by a session
    close, and the loop exits; a non-binary frame is silently skipped
    without any callback. -/
theorem readLoop_failure_handling (cfg : Option SessionConfig)
    (h : cfgOnError cfg = true) :
    (∀ (payload : List Nat) (m : String),
      readLoopStep cfg (.frameEvent true payload (.error m)) =
        ⟨false, false, some ("avatar session read loop: decode message: " ++ m), none⟩) ∧
    (∀ m : String,
      readLoopStep cfg (.readFailure false false m) =
        ⟨true, true, some ("avatar session read loop: read message: " ++ m), none⟩) ∧
    (∀ (payload : List Nat) (d : Except String Message),
      readLoopStep cfg (.frameEvent false payload d) = ⟨false, false, none, none⟩) := by
  refine ⟨?_, ?_, ?_⟩ <;> intros <;> simp [readLoopStep, h]

/-- Witness for C6 with the default config and a read failure "boom". -/
theorem readLoop_failure_handling_witness :
    readLoopStep (some defaultSessionConfig) (.readFailure false false "boom") =
      ⟨true, true, some ("avatar session read loop: read message: " ++ "boom"), none⟩ :=
  (readLoop_failure_handling (some defaultSessionConfig) rfl).2.1 "boom"

/- ===== C4 (corrected) ===== -/

/-- C4 counterexample: a session with no open connection and a registered
    OnClose; Close returns success but the OnClose callback still fires,
    so the callback does not fire "only when a connection had in fact been
    open". -/
theorem close_onClose_without_connection_cex :
    sampleIdleSession.conn = false ∧
    onCloseRegistered sampleIdleSession = true ∧
    (Close (some sampleIdleSession) ⟨none, none⟩).ret = Except.ok () ∧
    (Close (some sampleIdleSession) ⟨none, none⟩).onCloseFired = true :=
  ⟨rfl, rfl, rfl, rfl⟩

/-- C4 amended: Close on a nil session returns success as a no-op with no
    callback; Close on a non-nil session with no open connection returns
    success, leaves the session unchanged, and fires the registered
    OnClose callback even though no connection was open; a repeated Close
    fires it again. -/
theorem close_idempotent_callback_amended (sess : AvatarSession)
    (w w' : CloseWorld) (h : sess.conn = false) :
    (∀ w0 : CloseWorld, Close none w0 = ⟨none, .ok (), false, false⟩) ∧
    Close (some sess) w = ⟨some sess, .ok (), false, onCloseRegistered sess⟩ ∧
    Close ((Close (some sess) w).s) w' =
      ⟨some sess, .ok (), false, onCloseRegistered sess⟩ := by
  refine ⟨fun w0 => rfl, ?_, ?_⟩ <;> simp [Close, h]

/-- Witness for C4 amended at the idle sample session. -/
theorem close_idempotent_callback_amended_witness :
    Close (some sampleIdleSession) ⟨none, none⟩ =
      ⟨some sampleIdleSession, .ok (), false, onCloseRegistered sampleIdleSession⟩ ∧
    Close ((Close (some sampleIdleSession) ⟨none, none⟩).s) ⟨none, none⟩ =
      ⟨some sampleIdleSession, .ok (), false, onCloseRegistered sampleIdleSession⟩ :=
  ⟨(close_idempotent_callback_amended sampleIdleSession ⟨none, none⟩ ⟨none, none⟩ rfl).2.1,
   (close_idempotent_callback_amended sampleIdleSession ⟨none, none⟩ ⟨none, none⟩ rfl).2.2⟩

/- ===== C5 (corrected) ===== -/

/-- C5 counterexample: a session with an open connection and a registered
    OnClose; the close-control-frame write fails, the connection reference
    is cleared, but the close callback is not invoked on this failure
    path. -/
theorem close_failure_path_no_callback_cex :
    sampleOpenSession.conn = true ∧
    onCloseRegistered sampleOpenSession = true ∧
    (Close (some sampleOpenSession) ⟨some "boom", none⟩).s =
      some { sampleOpenSession with conn := false } ∧
    (Close (some sampleOpenSession) ⟨some "boom", none⟩).ret =
      .error (.str ("close avatar session: send close message: " ++ "boom")) ∧
    (Close (some sampleOpenSession) ⟨some "boom", none⟩).onCloseFired = false :=
  ⟨rfl, rfl, rfl, rfl, rfl⟩

/-- C5 amended: for every Close on a session with an open connection, in
    all outcome paths the session's connection reference is cleared and
    the underlying connection is closed, and each failure is reported; but
    the close callback is invoked only on the success path, never on the
    two failure paths. -/
theorem close_clears_connection_amended (sess : AvatarSession) (w : CloseWorld)
    (h : sess.conn = true) :
    (Close (some sess) w).s = some { sess with conn := false } ∧
    (Close (some sess) w).connCloseCalled = true ∧
    (∀ m, w.writeCloseErr = some m →
      (Close (some sess) w).ret =
        .error (.str ("close avatar session: send close message: " ++ m)) ∧
      (Close (some sess) w).onCloseFired = false) ∧
    (∀ m, w.writeCloseErr = none → w.connCloseErr = some m →
      (Close (some sess) w).ret =
        .error (.str ("close avatar session: close connection: " ++ m)) ∧
      (Close (some sess) w).onCloseFired = false) ∧
    (w.writeCloseErr = none → w.connCloseErr = none →
      (Close (some sess) w).ret = .ok () ∧
      (Close (some sess) w).onCloseFired = onCloseRegistered sess) := by
  rcases w with ⟨wc, cc⟩
  cases wc <;> cases cc <;>
    simp [Close, h, onCloseRegistered]

/-- Witness for C5 amended: control-frame write failure at the open sample
    session. -/
theorem close_clears_connection_amended_witness :
    (Close (some sampleOpenSession) ⟨some "boom", none⟩).s =
      some { sampleOpenSession with conn := false } ∧
    (Close (some sampleOpenSession) ⟨some "boom", none⟩).connCloseCalled = true ∧
    (Close (some sampleOpenSession) ⟨some "boom", none⟩).onCloseFired = false := by
  have h := close_clears_connection_amended sampleOpenSession ⟨some "boom", none⟩ rfl
  exact ⟨h.1, h.2.1, (h.2.2.1 "boom" rfl).2⟩

/- ===== C3 ===== -/

/-- C3: on a connected session, successful SendAudio calls with end=false,
    end=false, end=true all return the same correlation id, generated
    lazily by the first call; the id stays active across the first two
    calls, is still returned by the end=true call, and is cleared by it;
    the next successful SendAudio call returns the freshly generated id,
    which is different whenever the generator does not repeat itself. -/
theorem sendAudio_correlation_lifecycle (s : AvatarSession)
    (w1 w2 w3 w4 : SendAudioWorld) (a1 a2 a3 a4 : List Nat) (e4 : Bool)
    (id1 id2 : String)
    (hconn : s.conn = true) (hreq : s.currentReqID = "")
    (hg1 : w1.genID = .ok id1) (hid1 : id1 ≠ "")
    (h1m : w1.marshalErr = none) (h1w : w1.writeErr = none)
    (h2m : w2.marshalErr = none) (h2w : w2.writeErr = none)
    (h3m : w3.marshalErr = none) (h3w : w3.writeErr = none)
    (hg4 : w4.genID = .ok id2)
    (h4m : w4.marshalErr = none) (h4w : w4.writeErr = none)
    (hne : id2 ≠ id1) :
    (SendAudio s w1 a1 false).ret = .ok id1 ∧
    (SendAudio s w1 a1 false).s.currentReqID = id1 ∧
    (SendAudio (SendAudio s w1 a1 false).s w2 a2 false).ret = .ok id1 ∧
    (SendAudio (SendAudio s w1 a1 false).s w2 a2 false).s.currentReqID = id1 ∧
    (SendAudio (SendAudio (SendAudio s w1 a1 false).s w2 a2 false).s w3 a3 true).ret
      = .ok id1 ∧
    (SendAudio (SendAudio (SendAudio s w1 a1 false).s w2 a2 false).s w3 a3 true).s.currentReqID
      = "" ∧
    (SendAudio (SendAudio (SendAudio (SendAudio s w1 a1 false).s w2 a2 false).s w3 a3 true).s
        w4 a4 e4).ret = .ok id2 ∧
    id2 ≠ id1 := by
  have r1 : SendAudio s w1 a1 false =
      ⟨{ s with currentReqID := id1 }, .ok id1,
        some { type := .clientAudioInput
               data := .clientAudioInput (some { reqId := id1, audio := a1, isEnd := false }) }⟩ := by
    simp [SendAudio, hconn, hreq, hg1, h1m, h1w]
  have r2 : SendAudio ({ s with currentReqID := id1 }) w2 a2 false =
      ⟨{ s with currentReqID := id1 }, .ok id1,
        some { type := .clientAudioInput
               data := .clientAudioInput (some { reqId := id1, audio := a2, isEnd := false }) }⟩ := by
    simp [SendAudio, hconn, hid1, h2m, h2w]
  have r3 : SendAudio ({ s with currentReqID := id1 }) w3 a3 true =
      ⟨{ s with currentReqID := "" }, .ok id1,
        some { type := .clientAudioInput
               data := .clientAudioInput (some { reqId := id1, audio := a3, isEnd := true }) }⟩ := by
    simp [SendAudio, hconn, hid1, h3m, h3w]
  have r4 : (SendAudio ({ s with currentReqID := "" }) w4 a4 e4).ret = .ok id2 := by
    cases e4 <;> simp [SendAudio, hconn, hg4, h4m, h4w]
  rw [r1]
  rw [show (⟨{ s with currentReqID := id1 }, .ok id1,
      some { type := .clientAudioInput
             data := .clientAudioInput (some { reqId := id1, audio := a1, isEnd := false }) }⟩
        : SendAudioRes).s = { s with currentReqID := id1 } from rfl]
  rw [r2]
  rw [show (⟨{ s with currentReqID := id1 }, .ok id1,
      some { type := .clientAudioInput
             data := .clientAudioInput (some { reqId := id1, audio := a2, isEnd := false }) }⟩
        : SendAudioRes).s = { s with currentReqID := id1 } from rfl]
  rw [r3]
  exact ⟨rfl, rfl, rfl, rfl, rfl, rfl, r4, hne⟩

/-- A successful SendAudio world generating id "req-a". -/
def sampleSendWorldA : SendAudioWorld := ⟨.ok "req-a", none, none⟩

/-- A successful SendAudio world generating id "req-b". -/
def sampleSendWorldB : SendAudioWorld := ⟨.ok "req-b", none, none⟩

/-- Witness for C3: the concrete chunk sequence on the open sample
    session. -/
theorem sendAudio_correlation_lifecycle_witness :
    (SendAudio sampleOpenSession sampleSendWorldA [1] false).ret = .ok "req-a" ∧
    (SendAudio (SendAudio sampleOpenSession sampleSendWorldA [1] false).s
      sampleSendWorldA [2] false).ret = .ok "req-a" ∧
    (SendAudio (SendAudio (SendAudio sampleOpenSession sampleSendWorldA [1] false).s
      sampleSendWorldA [2] false).s sampleSendWorldA [3] true).ret = .ok "req-a" ∧
    (SendAudio (SendAudio (SendAudio (SendAudio sampleOpenSession sampleSendWorldA [1] false).s
      sampleSendWorldA [2] false).s sampleSendWorldA [3] true).s
      sampleSendWorldB [4] false).ret = .ok "req-b" := by
  have h := sendAudio_correlation_lifecycle sampleOpenSession
    sampleSendWorldA sampleSendWorldA sampleSendWorldA sampleSendWorldB
    [1] [2] [3] [4] false "req-a" "req-b"
    rfl rfl rfl (by decide) rfl rfl rfl rfl rfl rfl rfl rfl rfl (by decide)
  exact ⟨h.1, h.2.2.1, h.2.2.2.2.1, h.2.2.2.2.2.2.1⟩

/- ===== C8 ===== -/

/-- One step of qSet. -/
lemma qSet_cons (hd : String × String) (tl : List (String × String)) (k v : String) :
    qSet (hd :: tl) k v =
      if hd.1 ≠ k then hd :: qSet tl k v else qSet tl k v := by
  by_cases h : hd.1 = k <;> simp [qSet, List.filter_cons, h]

/-- One step of qGet. -/
lemma qGet_cons (hd : String × String) (rest : List (String × String)) (k : String) :
    qGet (hd :: rest) k = if hd.1 = k then some hd.2 else qGet rest k := by
  by_cases h : hd.1 = k <;> simp [qGet, List.find?_cons, h]

/-- Set then get of the same key yields the set value. -/
lemma qGet_qSet_self (q : List (String × String)) (k v : String) :
    qGet (qSet q k v) k = some v := by
  induction q with
  | nil => simp [qGet, qSet]
  | cons hd tl ih =>
    rw [qSet_cons]
    by_cases h : hd.1 = k
    · rw [if_neg (by simp [h])]
      exact ih
    · rw [if_pos h, qGet_cons, if_neg h]
      exact ih

/-- Set of a different key does not change the value of a key. -/
lemma qGet_qSet_ne (q : List (String × String)) (k k' v : String) (h : k ≠ k') :
    qGet (qSet q k' v) k = qGet q k := by
  induction q with
  | nil =>
    show qGet [(k', v)] k = qGet [] k
    rw [qGet_cons, if_neg (by simpa using Ne.symm h)]
  | cons hd tl ih =>
    rw [qSet_cons]
    by_cases hh : hd.1 = k'
    · rw [if_neg (by simp [hh]), ih, qGet_cons,
        if_neg (by rw [hh]; exact Ne.symm h)]
    · rw [if_pos hh, qGet_cons, qGet_cons, ih]

/-- C8: the connection request always carries the avatar id as the "id"
    query parameter; in header transport the app id and token are sent as
    the X-App-ID and X-Session-Key headers and (provided the ingress URL
    itself carries no such parameters) not as query parameters; in query
    transport they are sent as the appId and sessionKey query parameters
    and no headers are sent. -/
theorem start_auth_transport_spec (cfg : SessionConfig) (token : String)
    (baseQ : List (String × String))
    (hA : qGet baseQ "appId" = none) (hS : qGet baseQ "sessionKey" = none) :
    qGet (buildStartQuery cfg token baseQ) "id" = some cfg.avatarID ∧
    (cfg.useQueryAuth = false →
      buildStartHeaders cfg token = [("X-App-ID", cfg.appID), ("X-Session-Key", token)] ∧
      qGet (buildStartQuery cfg token baseQ) "appId" = none ∧
      qGet (buildStartQuery cfg token baseQ) "sessionKey" = none) ∧
    (cfg.useQueryAuth = true →
      qGet (buildStartQuery cfg token baseQ) "appId" = some cfg.appID ∧
      qGet (buildStartQuery cfg token baseQ) "sessionKey" = some token ∧
      buildStartHeaders cfg token = []) := by
  refine ⟨?_, ?_, ?_⟩
  · cases hq : cfg.useQueryAuth
    · simp only [buildStartQuery, hq]
      rw [if_neg (by simp)]
      exact qGet_qSet_self baseQ "id" cfg.avatarID
    · simp only [buildStartQuery, hq]
      rw [if_pos trivial,
        qGet_qSet_ne _ "id" "sessionKey" token (by decide),
        qGet_qSet_ne _ "id" "appId" cfg.appID (by decide)]
      exact qGet_qSet_self baseQ "id" cfg.avatarID
  · intro hq
    refine ⟨by simp [buildStartHeaders, hq], ?_, ?_⟩
    · simp only [buildStartQuery, hq]
      rw [if_neg (by simp),
        qGet_qSet_ne _ "appId" "id" cfg.avatarID (by decide)]
      exact hA
    · simp only [buildStartQuery, hq]
      rw [if_neg (by simp),
        qGet_qSet_ne _ "sessionKey" "id" cfg.avatarID (by decide)]
      exact hS
  · intro hq
    refine ⟨?_, ?_, by simp [buildStartHeaders, hq]⟩
    · simp only [buildStartQuery, hq]
      rw [if_pos trivial,
        qGet_qSet_ne _ "appId" "sessionKey" token (by decide)]
      exact qGet_qSet_self _ "appId" cfg.appID
    · simp only [buildStartQuery, hq]
      rw [if_pos trivial]
      exact qGet_qSet_self _ "sessionKey" token

/-- A header-transport config with avatar id, app id and ingress URL set. -/
def sampleHeaderCfg : SessionConfig :=
  { defaultSessionConfig with
      avatarID := "av-1"
      appID := "app-1"
      ingressEndpointURL := "https://ingress.example" }

/-- The same config with query-transport auth selected. -/
def sampleQueryCfg : SessionConfig :=
  { sampleHeaderCfg with useQueryAuth := true }

/-- Witness for C8: both transports at concrete configs with an empty base
    query. -/
theorem start_auth_transport_spec_witness :
    qGet (buildStartQuery sampleHeaderCfg "tok" []) "id" = some sampleHeaderCfg.avatarID ∧
    buildStartHeaders sampleHeaderCfg "tok" =
      [("X-App-ID", sampleHeaderCfg.appID), ("X-Session-Key", "tok")] ∧
    qGet (buildStartQuery sampleHeaderCfg "tok" []) "appId" = none ∧
    qGet (buildStartQuery sampleQueryCfg "tok" []) "appId" = some sampleQueryCfg.appID ∧
    qGet (buildStartQuery sampleQueryCfg "tok" []) "sessionKey" = some "tok" ∧
    buildStartHeaders sampleQueryCfg "tok" = [] := by
  have hH := start_auth_transport_spec sampleHeaderCfg "tok" [] rfl rfl
  have hQ := start_auth_transport_spec sampleQueryCfg "tok" [] rfl rfl
  exact ⟨hH.1, (hH.2.1 rfl).1, (hH.2.1 rfl).2.1,
    (hQ.2.2 rfl).1, (hQ.2.2 rfl).2.1, (hQ.2.2 rfl).2.2⟩

/- ===== C9 ===== -/

/-- C9: when the parsed response body carries one or more service-reported
    error entries, Init fails with the message formatted from the first
    entry as "Error status (code): title - detail" (so the failure text
    ends with that entry's detail field); no condition on the token field
    is needed, so this check takes precedence over the empty-token check. -/
theorem init_error_entries_failure (sess : AvatarSession) (cfg : SessionConfig)
    (w : InitWorld) (tr : SessionTokenResponse) (e : TokenErrEntry)
    (rest : List TokenErrEntry)
    (hcfg : sess.config = some cfg) (hkey : cfg.apiKey ≠ "")
    (hurl : cfg.consoleEndpointURL ≠ "") (hexp : cfg.expireAtIsZero = false)
    (henc : w.encodeErr = none) (hreq : w.newReqErr = none)
    (hhttp : w.http = .resp 200 (.ok ()) (.ok tr))
    (herr : tr.errors = e :: rest) :
    Init (some sess) w =
      (some sess,
        .error (.str ("init avatar session: " ++ ("Error " ++ toString e.status ++ " ("
          ++ e.code ++ "): " ++ e.title ++ " - " ++ e.detail)))) ∧
    (∃ p : String,
      Init (some sess) w = (some sess, .error (.str (p ++ e.detail)))) := by
  have h : Init (some sess) w =
      (some sess,
        .error (.str ("init avatar session: " ++ ("Error " ++ toString e.status ++ " ("
          ++ e.code ++ "): " ++ e.title ++ " - " ++ e.detail)))) := by
    simp [Init, hcfg, hkey, hurl, hexp, henc, hreq, hhttp, herr,
      formatSessionTokenError]
  refine ⟨h, ⟨"init avatar session: " ++ ("Error " ++ toString e.status ++ " ("
    ++ e.code ++ "): " ++ e.title ++ " - "), ?_⟩⟩
  rw [h]
  simp [String.append_assoc]

/-- A config that passes all Init preconditions. -/
def sampleInitCfg : SessionConfig :=
  { defaultSessionConfig with
      apiKey := "key-1"
      consoleEndpointURL := "https://console.example"
      expireAtIsZero := false
      expireAtUnix := 1700000000 }

/-- A session ready for Init. -/
def sampleInitSession : AvatarSession :=
  { config := some sampleInitCfg
    sessionToken := ""
    conn := false
    currentReqID := ""
    connectionID := "" }

/-- A 200 response carrying one error entry and an empty token field. -/
def sampleErrWorld : InitWorld :=
  ⟨none, none, .resp 200 (.ok ())
    (.ok ⟨"", [⟨"e1", 403, "forbidden", "Forbidden", "bad app"⟩]⟩)⟩

/-- Witness for C9: the concrete error-entry response (with an empty token
    field, showing the precedence over the empty-token check). -/
theorem init_error_entries_failure_witness :
    Init (some sampleInitSession) sampleErrWorld =
      (some sampleInitSession,
        .error (.str ("init avatar session: Error " ++ toString (403 : Int) ++ " ("
          ++ "forbidden" ++ "): " ++ "Forbidden" ++ " - " ++ "bad app"))) :=
  (init_error_entries_failure sampleInitSession sampleInitCfg sampleErrWorld
    ⟨"", [⟨"e1", 403, "forbidden", "Forbidden", "bad app"⟩]⟩
    ⟨"e1", 403, "forbidden", "Forbidden", "bad app"⟩ []
    rfl (by decide) (by decide) rfl rfl rfl rfl rfl).1

/- ===== C10 ===== -/

/-- C10: Init never changes the session on any error path (in particular
    the stored token is untouched), and on the success path the only
    change is that the token field is set to exactly the token of the
    parsed response. -/
theorem init_token_write_discipline :
    (∀ (s : Option AvatarSession) (w : InitWorld) (s' : Option AvatarSession)
        (e : SessionError), Init s w = (s', .error e) → s' = s) ∧
    (∀ (s : Option AvatarSession) (w : InitWorld) (s' : Option AvatarSession)
        (u : Unit), Init s w = (s', .ok u) →
      ∃ (sess : AvatarSession) (status : Int) (tr : SessionTokenResponse),
        s = some sess ∧ w.http = .resp status (.ok ()) (.ok tr) ∧
        tr.sessionToken ≠ "" ∧
        s' = some { sess with sessionToken := tr.sessionToken }) := by
  constructor
  · intro s w s' e h
    cases s with
    | none =>
      simp only [Init] at h
      injection h with h1 h2
      exact h1.symm
    | some sess =>
      simp only [Init] at h
      repeat' split at h
      all_goals injection h with h1 h2
      all_goals first | exact h1.symm | simp at h2
  · intro s w s' u h
    cases s with
    | none =>
      simp only [Init] at h
      injection h with h1 h2
      simp at h2
    | some sess =>
      simp only [Init] at h
      repeat' split at h
      all_goals injection h with h1 h2
      all_goals try simp at h2
      rename_i hhttp herrs htok
      exact ⟨sess, _, _, rfl, hhttp, by simpa using htok, h1.symm⟩

/-- A 200 response carrying the token "tok-1" and no error entries. -/
def sampleOKWorld : InitWorld := ⟨none, none, .resp 200 (.ok ()) (.ok ⟨"tok-1", []⟩)⟩

/-- Witness for C10: the concrete success path writes exactly the
    response token. -/
theorem init_token_write_discipline_witness :
    ∃ (sess : AvatarSession) (status : Int) (tr : SessionTokenResponse),
      (some sampleInitSession : Option AvatarSession) = some sess ∧
      sampleOKWorld.http = .resp status (.ok ()) (.ok tr) ∧
      tr.sessionToken ≠ "" ∧
      (some { sampleInitSession with sessionToken := "tok-1" } : Option AvatarSession) =
        some { sess with sessionToken := tr.sessionToken } :=
  init_token_write_discipline.2 (some sampleInitSession) sampleOKWorld
    (some { sampleInitSession with sessionToken := "tok-1" }) () rfl

/- ===== C1 ===== -/

/-- Reduction of Start up to the post-dial stage: once the preconditions
    pass, the URL parses, the scheme normalizes and the dial succeeds, the
    outcome is decided by the configure write and the handshake wait, and
    every failure closes and clears the connection. -/
lemma start_post_dial (s : AvatarSession) (cfg : SessionConfig) (w : StartWorld)
    (parts : UrlParts) (sc : String)
    (hcfg : s.config = some cfg) (hconn : s.conn = false) (htok : s.sessionToken ≠ "")
    (hurl : cfg.ingressEndpointURL ≠ "") (hav : cfg.avatarID ≠ "") (happ : cfg.appID ≠ "")
    (hparse : w.parse = .ok parts) (hsc : normalizeScheme parts.scheme = .ok sc)
    (hdial : w.dial = .ok) :
    Start s w =
      match sendClientConfigureSession cfg true w.configure with
      | .error e => ⟨{ s with conn := false }, .error e, true, true, false⟩
      | .ok _ =>
        match awaitServerConfirmSession true w.read with
        | .error e => ⟨{ s with conn := false }, .error e, true, true, false⟩
        | .ok cid => ⟨{ s with conn := true, connectionID := cid }, .ok cid, true, false, true⟩ := by
  obtain ⟨c0, tok, conn0, req0, cid0⟩ := s
  obtain rfl : c0 = some cfg := hcfg
  obtain rfl : conn0 = false := hconn
  simp only [Start]
  rw [if_neg (by simp), if_neg htok, if_neg hurl, if_neg hav, if_neg happ, hparse]
  dsimp only
  rw [hsc]
  dsimp only
  rw [hdial]

/-- Reduction of Start up to the handshake wait: additionally the
    configure write succeeded. -/
lemma start_handshake_stage (s : AvatarSession) (cfg : SessionConfig) (w : StartWorld)
    (parts : UrlParts) (sc : String)
    (hcfg : s.config = some cfg) (hconn : s.conn = false) (htok : s.sessionToken ≠ "")
    (hurl : cfg.ingressEndpointURL ≠ "") (hav : cfg.avatarID ≠ "") (happ : cfg.appID ≠ "")
    (hparse : w.parse = .ok parts) (hsc : normalizeScheme parts.scheme = .ok sc)
    (hdial : w.dial = .ok) (hconf : w.configure = .ok) :
    Start s w =
      match awaitServerConfirmSession true w.read with
      | .error e => ⟨{ s with conn := false }, .error e, true, true, false⟩
      | .ok cid => ⟨{ s with conn := true, connectionID := cid }, .ok cid, true, false, true⟩ := by
  rw [start_post_dial s cfg w parts sc hcfg hconn htok hurl hav happ hparse hsc hdial,
    hconf]
  rfl

/-- C1: once Start reaches the handshake wait, exactly one inbound read
    decides the outcome: a confirmation with a non-empty connection id
    makes Start succeed, store that id and return it; a confirmation with
    a nil payload or an empty connection id fails; a server-error envelope
    fails carrying the service's code and message (a distinct missing-payload
    failure when its payload is nil); any other envelope type
    fails as "unexpected message during handshake"; a non-binary frame
    fails as "expected binary protobuf message"; an undecodable payload
    fails as "invalid protobuf payload". -/
theorem start_handshake_decides (s : AvatarSession) (cfg : SessionConfig) (w : StartWorld)
    (parts : UrlParts) (sc : String)
    (hcfg : s.config = some cfg) (hconn : s.conn = false) (htok : s.sessionToken ≠ "")
    (hurl : cfg.ingressEndpointURL ≠ "") (hav : cfg.avatarID ≠ "") (happ : cfg.appID ≠ "")
    (hparse : w.parse = .ok parts) (hsc : normalizeScheme parts.scheme = .ok sc)
    (hdial : w.dial = .ok) (hconf : w.configure = .ok) :
    (∀ env c, w.read = .frame true (.ok env) → env.type = .serverConfirmSession →
      env.getServerConfirmSession = some c → c.connectionId ≠ "" →
      (Start s w).ret = .ok c.connectionId ∧
      (Start s w).s.connectionID = c.connectionId ∧
      (Start s w).s.conn = true ∧ (Start s w).readLoopStarted = true) ∧
    (∀ env, w.read = .frame true (.ok env) → env.type = .serverConfirmSession →
      (env.getServerConfirmSession = none ∨ env.getServerConfirmSession = some ⟨""⟩) →
      (Start s w).ret = .error (.str
        "start avatar session: handshake succeeded but server_confirm_session.connection_id is empty")) ∧
    (∀ env e, w.read = .frame true (.ok env) → env.type = .serverError →
      env.getServerError = some e →
      (Start s w).ret = .error (.str
        ("start avatar session: ServerError during handshake (connection_id="
          ++ e.connectionId ++ ", req_id=" ++ e.reqId ++ ", code=" ++ toString e.code
          ++ "): " ++ e.message))) ∧
    (∀ env, w.read = .frame true (.ok env) → env.type = .serverError →
      env.getServerError = none →
      (Start s w).ret = .error (.str
        "start avatar session: ServerError during handshake (missing payload)")) ∧
    (∀ env, w.read = .frame true (.ok env) → env.type ≠ .serverConfirmSession →
      env.type ≠ .serverError →
      (Start s w).ret = .error (.str
        ("start avatar session: unexpected message during handshake: type="
          ++ messageTypeName env.type))) ∧
    (∀ d, w.read = .frame false d →
      (Start s w).ret = .error (.str
        "start avatar session: failed during websocket handshake: expected binary protobuf message")) ∧
    (∀ m, w.read = .frame true (.error m) →
      (Start s w).ret = .error (.str
        ("start avatar session: failed during websocket handshake: invalid protobuf payload: " ++ m))) := by
  have hst := start_handshake_stage s cfg w parts sc hcfg hconn htok hurl hav happ
    hparse hsc hdial hconf
  refine ⟨?_, ?_, ?_, ?_, ?_, ?_, ?_⟩
  · intro env c hr hty hc hcne
    rw [hst]
    simp [awaitServerConfirmSession, hr, hty, hc, hcne]
  · intro env hr hty hc
    rw [hst]
    rcases hc with hc | hc <;> simp [awaitServerConfirmSession, hr, hty, hc]
  · intro env e hr hty he
    rw [hst]
    simp [awaitServerConfirmSession, hr, hty, he]
  · intro env hr hty he
    rw [hst]
    simp [awaitServerConfirmSession, hr, hty, he]
  · intro env hr hty1 hty2
    rw [hst]
    rcases henv : env.type with _ | _ | _ | _ | _ | n <;>
      simp_all [awaitServerConfirmSession, messageTypeName]
  · intro d hr
    rw [hst]
    simp [awaitServerConfirmSession, hr]
  · intro m hr
    rw [hst]
    simp [awaitServerConfirmSession, hr]

/-- A session ready for Start (config with avatar/app/ingress, token set,
    no connection). -/
def sampleStartSession : AvatarSession :=
  { config := some sampleHeaderCfg
    sessionToken := "tok"
    conn := false
    currentReqID := ""
    connectionID := "" }

/-- Parsed URL parts of the sample ingress endpoint. -/
def sampleUrlParts : UrlParts := ⟨"https", []⟩

/-- A Start world whose handshake read is a confirmation carrying
    connection id "conn-1". -/
def sampleConfirmWorld : StartWorld :=
  ⟨.ok sampleUrlParts, .ok, .ok,
    .frame true (.ok ⟨.serverConfirmSession, .serverConfirmSession (some ⟨"conn-1"⟩)⟩)⟩

/-- Witness for C1: the confirmation handshake at concrete inputs. -/
theorem start_handshake_decides_witness :
    (Start sampleStartSession sampleConfirmWorld).ret = .ok "conn-1" ∧
    (Start sampleStartSession sampleConfirmWorld).s.connectionID = "conn-1" := by
  have h := (start_handshake_decides sampleStartSession sampleHeaderCfg
    sampleConfirmWorld sampleUrlParts "wss" rfl rfl (by decide) (by decide) (by decide)
    (by decide) rfl rfl rfl rfl).1
    ⟨.serverConfirmSession, .serverConfirmSession (some ⟨"conn-1"⟩)⟩
    ⟨"conn-1"⟩ rfl rfl rfl (by decide)
  exact ⟨h.1, h.2.1⟩

/- ===== C2 ===== -/

/-- A string with a longer prefix appended never equals a shorter string. -/
lemma append_ne_of_longer (a b m : String) (h : b.length < a.length) : a ++ m ≠ b := by
  intro he
  have hl := congrArg String.length he
  rw [String.length_append] at hl
  omega

/-- A string starting with prefix a differs from b when a and b disagree
    at an index inside a. -/
lemma append_ne_of_nth (a b m : String) (i : Nat) (hi : i < a.data.length)
    (h : a.data[i]? ≠ b.data[i]?) : a ++ m ≠ b := by
  intro he
  apply h
  have hd : a.data ++ m.data = b.data := by
    have h2 := congrArg String.data he
    simpa using h2
  rw [← hd]
  exact (List.getElem?_append_left hi).symm

/-- normalizeScheme never produces the already-started error. -/
lemma normalizeScheme_ne_already (sch : String) :
    normalizeScheme sch ≠ .error (.str "start avatar session: session already started") := by
  intro hcon
  unfold normalizeScheme at hcon
  dsimp only at hcon
  repeat' split at hcon
  all_goals first
    | (simp at hcon; done)
    | (simp only [Except.error.injEq, SessionError.str.injEq] at hcon
       try simp only [String.append_assoc] at hcon
       first
         | exact append_ne_of_longer _ _ _ (by decide) hcon
         | exact append_ne_of_nth _ _ _ 22 (by decide) (by decide) hcon)

/-- dialFailError never produces the already-started error. -/
lemma dialFailError_ne_already (resp : Option DialResp) (m : String) :
    dialFailError resp m ≠ .str "start avatar session: session already started" := by
  intro hcon
  unfold dialFailError at hcon
  repeat' split at hcon
  all_goals first
    | (simp at hcon; done)
    | (simp only [SessionError.str.injEq] at hcon
       try simp only [String.append_assoc] at hcon
       first
         | exact append_ne_of_longer _ _ _ (by decide) hcon
         | exact append_ne_of_nth _ _ _ 22 (by decide) (by decide) hcon)

/-- sendClientConfigureSession never produces the already-started error. -/
lemma sendConfigure_ne_already (cfg : SessionConfig) (co : Bool) (r : ConfigureResult) :
    sendClientConfigureSession cfg co r ≠
      .error (.str "start avatar session: session already started") := by
  intro hcon
  unfold sendClientConfigureSession at hcon
  repeat' split at hcon
  all_goals first
    | (simp at hcon; done)
    | (simp only [Except.error.injEq, SessionError.str.injEq] at hcon
       try simp only [String.append_assoc] at hcon
       first
         | exact append_ne_of_longer _ _ _ (by decide) hcon)

/-- awaitServerConfirmSession never produces the already-started error. -/
lemma await_ne_already (co : Bool) (r : HandshakeRead) :
    awaitServerConfirmSession co r ≠
      .error (.str "start avatar session: session already started") := by
  intro hcon
  unfold awaitServerConfirmSession at hcon
  repeat' split at hcon
  all_goals first
    | (simp at hcon; done)
    | (simp only [Except.error.injEq, SessionError.str.injEq] at hcon
       try simp only [String.append_assoc] at hcon
       first
         | exact append_ne_of_longer _ _ _ (by decide) hcon
         | exact append_ne_of_nth _ _ _ 22 (by decide) (by decide) hcon
         | exact append_ne_of_nth _ _ _ 24 (by decide) (by decide) hcon)

/-- Start on a session with no open connection is never rejected as
    already started: every branch returns success or a different error. -/
lemma start_no_already_started (s' : AvatarSession) (w' : StartWorld)
    (h : s'.conn = false) :
    (Start s' w').ret ≠
      .error (.str "start avatar session: session already started") := by
  intro hcon
  unfold Start at hcon
  repeat' split at hcon
  all_goals try dsimp only at hcon
  all_goals first
    | (simp at hcon; done)
    | (exact absurd (by assumption : s'.conn = true) (by simp [h]))
    | (simp only [Except.error.injEq] at hcon
       first
         | exact dialFailError_ne_already _ _ hcon
         | (subst hcon
            rename_i heq
            first
              | exact normalizeScheme_ne_already _ heq
              | exact sendConfigure_ne_already _ _ _ heq
              | exact await_ne_already _ _ heq)
         | exact append_ne_of_longer _ _ _ (by decide)
             (SessionError.str.injEq _ _ ▸ hcon))

/-- C2: when the connection was opened but the handshake then fails, Start
    closes the connection before returning the failure and clears the
    session's connection reference, and a subsequent Start on the
    resulting session is never rejected as already started. -/
theorem start_failure_clears_connection (s : AvatarSession) (cfg : SessionConfig)
    (w : StartWorld) (parts : UrlParts) (sc : String) (e : SessionError)
    (hcfg : s.config = some cfg) (hconn : s.conn = false) (htok : s.sessionToken ≠ "")
    (hurl : cfg.ingressEndpointURL ≠ "") (hav : cfg.avatarID ≠ "") (happ : cfg.appID ≠ "")
    (hparse : w.parse = .ok parts) (hsc : normalizeScheme parts.scheme = .ok sc)
    (hdial : w.dial = .ok)
    (hret : (Start s w).ret = .error e) :
    (Start s w).connOpened = true ∧
    (Start s w).connClosed = true ∧
    (Start s w).s.conn = false ∧
    (∀ w' : StartWorld, (Start (Start s w).s w').ret ≠
      .error (.str "start avatar session: session already started")) := by
  have hpd := start_post_dial s cfg w parts sc hcfg hconn htok hurl hav happ
    hparse hsc hdial
  rw [hpd] at hret ⊢
  cases hcf : sendClientConfigureSession cfg true w.configure with
  | error e1 =>
    exact ⟨rfl, rfl, rfl, fun w' => start_no_already_started _ w' rfl⟩
  | ok msg =>
    rw [hcf] at hret
    cases har : awaitServerConfirmSession true w.read with
    | error e2 =>
      exact ⟨rfl, rfl, rfl, fun w' => start_no_already_started _ w' rfl⟩
    | ok cid =>
      rw [har] at hret
      simp at hret

/-- A Start world whose handshake read is a confirmation with an empty
    connection id. -/
def sampleEmptyIdWorld : StartWorld :=
  ⟨.ok sampleUrlParts, .ok, .ok,
    .frame true (.ok ⟨.serverConfirmSession, .serverConfirmSession (some ⟨""⟩)⟩)⟩

/-- Witness for C2: the empty-connection-id handshake failure at concrete
    inputs closes and clears the connection and leaves Start retryable. -/
theorem start_failure_clears_connection_witness :
    (Start sampleStartSession sampleEmptyIdWorld).connClosed = true ∧
    (Start sampleStartSession sampleEmptyIdWorld).s.conn = false ∧
    (Start (Start sampleStartSession sampleEmptyIdWorld).s sampleEmptyIdWorld).ret ≠
      .error (.str "start avatar session: session already started") := by
  have h := start_failure_clears_connection sampleStartSession sampleHeaderCfg
    sampleEmptyIdWorld sampleUrlParts "wss"
    (.str "start avatar session: handshake succeeded but server_confirm_session.connection_id is empty")
    rfl rfl (by decide) (by decide) (by decide) (by decide) rfl rfl rfl rfl
  exact ⟨h.2.1, h.2.2.1, h.2.2.2 sampleEmptyIdWorld⟩

end Avatar
